import Mathlib

/-!
# ZCollectedHeap: the heap façade of ZGC

A shallow embedding of `src/hotspot/share/gc/z/zCollectedHeap.cpp`.

The façade owns no mutable state of its own: every operation either answers
from, or delegates to, one of its collaborators (the heap engine `_heap`, the
driver, the metaspace of a class loader, `Universe`, the runtime workers).
The collaborators are not part of the translated file, so they are taken as
parameters: a record `Collaborators σ` of functions over an abstract state `σ`.
The state threaded through the façade is that abstract state together with a
log of the non-const calls the façade has made so far, in program order.

Machine integers (`size_t`, `uintptr_t`) are natural numbers; arithmetic that
can wrap is reduced modulo `2 ^ 64`.
-/

namespace ZGC

/-! ## Types and constants the façade uses -/

/-- A `Thread*`, identified by the address of the thread object. -/
abbrev Thread := Nat

/-- Number of bits of `size_t` and `uintptr_t` (ZGC is 64-bit only). -/
def BitsPerWord : Nat := 64

/-- The constant `UINTPTR_MAX`. -/
def UINTPTR_MAX : Nat := 2 ^ BitsPerWord - 1

/-- The constant `LogHeapWordSize`: a heap word is `2 ^ 3` bytes. -/
def LogHeapWordSize : Nat := 3

/-- The constant `HeapWordSize`, in bytes. -/
def HeapWordSize : Nat := 2 ^ LogHeapWordSize

/-- The JNI return code `JNI_OK`. -/
def JNI_OK : Int := 0

/-- The JNI return code `JNI_ENOMEM`. -/
def JNI_ENOMEM : Int := -4

/-- Modelled from the spec: the enumeration `GCCause::Cause`, declared outside
the translated file. The causes the façade and the spec name are constructors
of their own; every other cause is `other n`. -/
inductive GCCause where
  | _heap_dump
  | _heap_inspection
  | _metadata_GC_threshold
  | _system_gc
  | other (n : Nat)
  deriving DecidableEq, Repr

/-- Modelled from the spec: `Metaspace::MetadataType`, the kind of metadata
an allocation is for. -/
inductive MetadataType where
  | ClassType
  | NonClassType
  deriving DecidableEq, Repr

/-- The ways a façade operation ends the process instead of returning. -/
inductive Fatal where
  | ShouldNotReachHere
  | guarantee_failed (msg : String)
  | assert_failed (msg : String)
  deriving DecidableEq, Repr

/-- One non-const call made on a collaborator, or one application of a
thread closure. -/
inductive Call where
  | calculate_verify_data (low high : Nat)
  | alloc_tlab (size_in_bytes : Nat)
  | driver_collect (cause : GCCause)
  | expand_and_allocate (loader_data size : Nat) (mdtype : MetadataType)
  | critical_allocate (loader_data size : Nat) (mdtype : MetadataType)
  | do_thread (thread : Thread)
  deriving DecidableEq, Repr

/-- Everything the façade consumes from outside the translated file. `σ` is
the joint state of the collaborators. -/
structure Collaborators (σ : Type) where
  /-- `ZHeap::is_initialized`. -/
  heap_is_initialized : σ → Bool
  /-- `ZHeap::is_in`. -/
  heap_is_in : σ → Nat → Bool
  /-- `ZHeap::is_allocating`. -/
  heap_is_allocating : σ → Nat → Bool
  /-- `ZHeap::alloc_tlab`: the address (0 on failure) and the new state. -/
  heap_alloc_tlab : σ → Nat → Nat × σ
  /-- The threads `ZHeap::threads_do` visits, in its order. -/
  heap_threads : σ → List Thread
  /-- The threads `ZRuntimeWorkers::threads_do` visits, in its order. -/
  runtime_workers_threads : σ → List Thread
  /-- `ZDriver::collect`. -/
  driver_collect : σ → GCCause → σ
  /-- `loader_data->metaspace_non_null()->expand_and_allocate`. -/
  expand_and_allocate : σ → Nat → Nat → MetadataType → Nat × σ
  /-- `MetaspaceCriticalAllocation::allocate`. -/
  critical_allocate : σ → Nat → Nat → MetadataType → Nat × σ
  /-- `Universe::calculate_verify_data`. -/
  calculate_verify_data : σ → Nat → Nat → σ
  /-- A `uintptr_t` load from memory. -/
  load : σ → Nat → Nat
  /-- `ZAddress::is_good_or_null`. -/
  is_good_or_null : σ → Nat → Bool
  /-- `jdk_internal_vm_StackChunk::cont_offset()`. -/
  cont_offset : Nat
  /-- `LogMinObjAlignment`: the object alignment is `2 ^ LogMinObjAlignment` words. -/
  LogMinObjAlignment : Nat
  /-- `ZAddressOffsetMask`: the bits of an address that are not colour bits. -/
  ZAddressOffsetMask : Nat
  /-- The field `_director`. -/
  _director : Thread
  /-- The field `_driver`. -/
  _driver : Thread
  /-- The field `_stat`. -/
  _stat : Thread

/-- The state an operation runs in: the collaborators' state and the log of
calls made so far (oldest first). -/
structure State (σ : Type) where
  ext : σ
  log : List Call

/-- A `ThreadClosure` whose own mutable state has type `κ`. -/
structure ThreadClosure (κ : Type) where
  do_thread : Thread → κ → κ

variable {σ κ : Type}

/-! ## Helpers from other files -/

/-- The constant `MinObjAlignment`, in words. -/
def MinObjAlignment (z : Collaborators σ) : Nat := 2 ^ z.LogMinObjAlignment

/-- Modelled from the spec: `align_up(size, alignment)` of `utilities/align.hpp`,
which rounds `size` up to a multiple of the power of two `alignment` by
`(size + mask) & ~mask` with `mask = alignment - 1`, in `size_t` arithmetic. -/
def align_up (size alignment : Nat) : Nat :=
  ((size + (alignment - 1)) % 2 ^ BitsPerWord) &&& (2 ^ BitsPerWord - 1 - (alignment - 1))

/-- Modelled from the spec: `align_object_size(size)`, the word count `size`
rounded up to the object alignment. -/
def align_object_size (z : Collaborators σ) (size : Nat) : Nat :=
  align_up size (MinObjAlignment z)

/-- Modelled from the spec: `ZUtils::words_to_bytes`, a word count converted to
a byte count by a left shift, in `size_t` arithmetic. -/
def words_to_bytes (size_in_words : Nat) : Nat :=
  (size_in_words <<< LogHeapWordSize) % 2 ^ BitsPerWord

/-- Modelled from the spec: an address with its colour bits masked off. -/
def mask_color_bits (z : Collaborators σ) (p : Nat) : Nat :=
  p &&& z.ZAddressOffsetMask

/-- Appends one call to the log. -/
def record (s : State σ) (c : Call) : State σ :=
  { s with log := s.log ++ [c] }

/-- The call `tc->do_thread(thread)`. -/
def ThreadClosure.apply (tc : ThreadClosure κ) (ks : κ × State σ) (thread : Thread) :
    κ × State σ :=
  (tc.do_thread thread ks.1, record ks.2 (Call.do_thread thread))

/-- Modelled from the spec: `ZHeap::threads_do`, which applies the closure to
the engine-internal GC threads one after the other. -/
def heap_threads_do (z : Collaborators σ) (tc : ThreadClosure κ) (ks : κ × State σ) :
    κ × State σ :=
  (z.heap_threads ks.2.ext).foldl tc.apply ks

/-- Modelled from the spec: `ZRuntimeWorkers::threads_do`, which applies the
closure to the runtime-worker threads one after the other. -/
def runtime_workers_threads_do (z : Collaborators σ) (tc : ThreadClosure κ)
    (ks : κ × State σ) : κ × State σ :=
  (z.runtime_workers_threads ks.2.ext).foldl tc.apply ks

/-! ## The façade: `zCollectedHeap.cpp` -/

/-- `jint ZCollectedHeap::initialize()`. -/
def ZCollectedHeap.initialize (z : Collaborators σ) (s : State σ) : Int × State σ :=
  if !z.heap_is_initialized s.ext then
    (JNI_ENOMEM, s)
  else
    let s1 : State σ :=
      { ext := z.calculate_verify_data s.ext 0 UINTPTR_MAX
        log := s.log ++ [Call.calculate_verify_data 0 UINTPTR_MAX] }
    (JNI_OK, s1)

/-- `bool ZCollectedHeap::is_maximal_no_gc() const`. -/
def ZCollectedHeap.is_maximal_no_gc (_z : Collaborators σ) (_s : State σ) : Except Fatal (Bool × State σ) :=
  -- Not supported
  Except.error Fatal.ShouldNotReachHere

/-- `bool ZCollectedHeap::is_in(const void* p) const`. -/
def ZCollectedHeap.is_in (z : Collaborators σ) (s : State σ) (p : Nat) : Bool :=
  z.heap_is_in s.ext p

/-- `bool ZCollectedHeap::requires_barriers(stackChunkOop obj) const`. -/
def ZCollectedHeap.requires_barriers (z : Collaborators σ) (s : State σ) (obj : Nat) : Bool :=
  let cont_addr := obj + z.cont_offset
  if !z.heap_is_allocating s.ext obj then
    -- An object that isn't allocating, is visible from GC tracing.
    true
  else if !z.is_good_or_null s.ext (z.load s.ext cont_addr) then
    -- An allocating chunk that isn't deeply good.
    true
  else
    -- The chunk is allocating and its pointers are good.
    false

/-- `HeapWord* ZCollectedHeap::allocate_new_tlab(min_size, requested_size, actual_size)`.
The argument `actual_size` is the content of `*actual_size` before the call; the
result is the returned address, the content of `*actual_size` after the call,
and the new state. -/
def ZCollectedHeap.allocate_new_tlab (z : Collaborators σ) (s : State σ)
    (_min_size requested_size actual_size : Nat) : Nat × Nat × State σ :=
  let size_in_bytes := words_to_bytes (align_object_size z requested_size)
  let r := z.heap_alloc_tlab s.ext size_in_bytes
  let addr := r.1
  let s1 : State σ := { ext := r.2, log := s.log ++ [Call.alloc_tlab size_in_bytes] }
  if addr ≠ 0 then
    (addr, requested_size, s1)
  else
    (addr, actual_size, s1)

/-- `void ZCollectedHeap::collect(GCCause::Cause cause)`. -/
def ZCollectedHeap.collect (z : Collaborators σ) (s : State σ) (cause : GCCause) : State σ :=
  { ext := z.driver_collect s.ext cause, log := s.log ++ [Call.driver_collect cause] }

/-- `MetaWord* ZCollectedHeap::satisfy_failed_metadata_allocation(loader_data, size, mdtype)`. -/
def ZCollectedHeap.satisfy_failed_metadata_allocation (z : Collaborators σ) (s : State σ)
    (loader_data size : Nat) (mdtype : MetadataType) : Nat × State σ :=
  -- Start asynchronous GC
  let s1 := ZCollectedHeap.collect z s GCCause._metadata_GC_threshold
  -- Expand and retry allocation
  let r := z.expand_and_allocate s1.ext loader_data size mdtype
  let result := r.1
  let s2 : State σ :=
    { ext := r.2, log := s1.log ++ [Call.expand_and_allocate loader_data size mdtype] }
  if result ≠ 0 then
    (result, s2)
  else
    -- As a last resort, try a critical allocation
    let c := z.critical_allocate s2.ext loader_data size mdtype
    (c.1, { ext := c.2, log := s2.log ++ [Call.critical_allocate loader_data size mdtype] })

/-- `void ZCollectedHeap::collect_as_vm_thread(GCCause::Cause cause)`.
`is_VM_thread` is the value of `Thread::current()->is_VM_thread()`, and
`debug_build` tells whether `assert` is compiled in. -/
def ZCollectedHeap.collect_as_vm_thread (_z : Collaborators σ) (s : State σ)
    (is_VM_thread debug_build : Bool) (cause : GCCause) : Except Fatal (Unit × State σ) :=
  if debug_build && !is_VM_thread then
    Except.error (Fatal.assert_failed "Should be the VM thread")
  else if !(cause = GCCause._heap_dump || cause = GCCause._heap_inspection) then
    Except.error (Fatal.guarantee_failed "Invalid cause")
  else
    Except.ok ((), s)

/-- `void ZCollectedHeap::do_full_collection(bool clear_all_soft_refs)`. -/
def ZCollectedHeap.do_full_collection (_z : Collaborators σ) (_s : State σ) (_clear_all_soft_refs : Bool) :
    Except Fatal (Unit × State σ) :=
  -- Not supported
  Except.error Fatal.ShouldNotReachHere

/-- `void ZCollectedHeap::gc_threads_do(ThreadClosure* tc) const`. The closure's
state before the call is `k`; the result is its state after the call. -/
def ZCollectedHeap.gc_threads_do (z : Collaborators σ) (s : State σ) (tc : ThreadClosure κ) (k : κ) :
    κ × State σ :=
  let r1 := tc.apply (k, s) z._director
  let r2 := tc.apply r1 z._driver
  let r3 := tc.apply r2 z._stat
  let r4 := heap_threads_do z tc r3
  runtime_workers_threads_do z tc r4

/-! ## A small concrete engine

A bump-pointer engine with one page, used to evaluate the façade on concrete
inputs. -/

/-- State of the concrete engine. -/
structure ToyState where
  initialized : Bool
  /-- Next free byte of the page and its end, as heap offsets. -/
  top : Nat
  limit : Nat
  /-- Objects still being allocated. -/
  allocating : List Nat
  /-- Memory, as address and value pairs; every other address holds 0. -/
  memory : List (Nat × Nat)
  /-- The bad mask of the current phase. -/
  bad_mask : Nat
  /-- Collection requests the driver has received. -/
  requests : List GCCause
  /-- Whether the metaspace can still expand. -/
  metaspace_can_expand : Bool
  /-- The range `Universe` verifies, once set. -/
  verify_range : Option (Nat × Nat)

/-- The concrete engine: addresses are heap offsets below `2 ^ 42` with colour
bits above them; an address is in the heap when it carries exactly one of the
three heap-view bits `2 ^ 42`, `2 ^ 43`, `2 ^ 44` and its offset lies in the
allocated part of the page. -/
def toy : Collaborators ToyState where
  heap_is_initialized := fun s => s.initialized
  heap_is_in := fun s addr =>
    decide ((addr / 2 ^ 42 = 1 ∨ addr / 2 ^ 42 = 2 ∨ addr / 2 ^ 42 = 4) ∧
      4096 ≤ addr % 2 ^ 42 ∧ addr % 2 ^ 42 < s.top)
  heap_is_allocating := fun s addr => decide (addr ∈ s.allocating)
  heap_alloc_tlab := fun s size =>
    if s.top + size ≤ s.limit then (2 ^ 44 + s.top, { s with top := s.top + size }) else (0, s)
  heap_threads := fun _ => [10, 11]
  runtime_workers_threads := fun _ => [20, 21]
  driver_collect := fun s cause => { s with requests := s.requests ++ [cause] }
  expand_and_allocate := fun s _ _ _ =>
    if s.metaspace_can_expand then (8192, { s with metaspace_can_expand := false }) else (0, s)
  critical_allocate := fun s _ _ _ => (0, s)
  calculate_verify_data := fun s low high => { s with verify_range := some (low, high) }
  load := fun s addr => ((s.memory.lookup addr).getD 0)
  is_good_or_null := fun s value => decide (value &&& s.bad_mask = 0)
  cont_offset := 16
  LogMinObjAlignment := 1
  ZAddressOffsetMask := 2 ^ 42 - 1
  _director := 1
  _driver := 2
  _stat := 3

/-- A state of the concrete engine: page `[4096, 65536)` with `[4096, 8192)`
allocated, the chunk at `2 ^ 44 + 4096` allocating with a good continuation
field, the chunk at `2 ^ 44 + 6144` allocating with a bad one. -/
def toy_state : State ToyState where
  ext :=
    { initialized := true
      top := 8192
      limit := 65536
      allocating := [2 ^ 44 + 4096, 2 ^ 44 + 6144]
      memory := [(2 ^ 44 + 4096 + 16, 2 ^ 44 + 4608), (2 ^ 44 + 6144 + 16, 2 ^ 43 + 4608)]
      bad_mask := 2 ^ 42 + 2 ^ 43
      requests := []
      metaspace_can_expand := true
      verify_range := none }
  log := []

/-- The concrete engine after a failed start: not initialized, its page full and
its metaspace unable to expand. -/
def toy_state_full : State ToyState where
  ext := { toy_state.ext with top := 65536, metaspace_can_expand := false, initialized := false }
  log := []

/-- A closure that collects the threads it is applied to, latest first. -/
def collect_threads : ThreadClosure (List Thread) where
  do_thread := fun t k => t :: k

/-! ## Notions the statements use -/

/-- The director, driver and stat threads are three different thread objects,
and none of them is an engine-internal or a runtime-worker thread. -/
def collector_threads_distinct (z : Collaborators σ) (s : State σ) : Prop :=
  z._director ≠ z._driver ∧ z._director ≠ z._stat ∧ z._driver ≠ z._stat ∧
  ∀ t ∈ z.heap_threads s.ext ++ z.runtime_workers_threads s.ext,
    t ≠ z._director ∧ t ≠ z._driver ∧ t ≠ z._stat

instance (z : Collaborators σ) (s : State σ) : Decidable (collector_threads_distinct z s) := by
  unfold collector_threads_distinct
  infer_instance

/-- The threads `gc_threads_do` is to visit, in the order of its statements. -/
def gc_threads (z : Collaborators σ) (s : State σ) : List Thread :=
  z._director :: z._driver :: z._stat ::
    (z.heap_threads s.ext ++ z.runtime_workers_threads s.ext)

/-- The object-aligned size of `requested_size` words converted to bytes, as an
unbounded number: the least multiple of the object alignment that is not below
`requested_size`, times the size of a word. -/
def object_aligned_size_in_bytes (z : Collaborators σ) (requested_size : Nat) : Nat :=
  (requested_size + (MinObjAlignment z - 1)) / MinObjAlignment z * MinObjAlignment z *
    HeapWordSize

/-! ## Theorems -/

/-- C1: `requires_barriers` returns false exactly when the engine reports the
chunk as allocating and the value of its continuation field is good or null,
and true in every other case; a chunk that is not allocating requires barriers
whatever its continuation field holds. -/
theorem requires_barriers_false_iff (z : Collaborators σ) (s : State σ) (obj : Nat) :
    (ZCollectedHeap.requires_barriers z s obj = false ↔
      (z.heap_is_allocating s.ext obj = true ∧
        z.is_good_or_null s.ext (z.load s.ext (obj + z.cont_offset)) = true)) ∧
    (ZCollectedHeap.requires_barriers z s obj = true ↔
      ¬ (z.heap_is_allocating s.ext obj = true ∧
        z.is_good_or_null s.ext (z.load s.ext (obj + z.cont_offset)) = true)) ∧
    (z.heap_is_allocating s.ext obj = false → ZCollectedHeap.requires_barriers z s obj = true) := by
  cases h1 : z.heap_is_allocating s.ext obj <;>
    cases h2 : z.is_good_or_null s.ext (z.load s.ext (obj + z.cont_offset)) <;>
    simp [ZCollectedHeap.requires_barriers, h1, h2]

/-- C1 on the concrete engine: the allocating chunk with a good continuation
field needs no barriers, the one with a bad field and an unknown chunk do. -/
theorem requires_barriers_false_iff_witness :
    ZCollectedHeap.requires_barriers toy toy_state (2 ^ 44 + 4096) = false ∧
    ZCollectedHeap.requires_barriers toy toy_state (2 ^ 44 + 6144) = true ∧
    ZCollectedHeap.requires_barriers toy toy_state (2 ^ 44 + 5120) = true := by
  refine ⟨?_, ?_, ?_⟩
  · exact (requires_barriers_false_iff toy toy_state (2 ^ 44 + 4096)).1.2 (by decide)
  · exact (requires_barriers_false_iff toy toy_state (2 ^ 44 + 6144)).2.1.2 (by decide)
  · exact (requires_barriers_false_iff toy toy_state (2 ^ 44 + 5120)).2.2 (by decide)

/-- C2: when the engine's TLAB allocation returns a non-zero address,
`allocate_new_tlab` returns that address and `*actual_size` holds
`requested_size` afterwards; when the engine returns 0, `allocate_new_tlab`
returns null and `*actual_size` keeps the value it had before the call. -/
theorem allocate_new_tlab_success_and_failure (z : Collaborators σ) (s : State σ)
    (min_size requested_size actual_size : Nat) :
    ((z.heap_alloc_tlab s.ext (words_to_bytes (align_object_size z requested_size))).1 ≠ 0 →
      (ZCollectedHeap.allocate_new_tlab z s min_size requested_size actual_size).1 =
        (z.heap_alloc_tlab s.ext (words_to_bytes (align_object_size z requested_size))).1 ∧
      (ZCollectedHeap.allocate_new_tlab z s min_size requested_size actual_size).2.1 =
        requested_size) ∧
    ((z.heap_alloc_tlab s.ext (words_to_bytes (align_object_size z requested_size))).1 = 0 →
      (ZCollectedHeap.allocate_new_tlab z s min_size requested_size actual_size).1 = 0 ∧
      (ZCollectedHeap.allocate_new_tlab z s min_size requested_size actual_size).2.1 =
        actual_size) := by
  constructor
  · intro h
    simp [ZCollectedHeap.allocate_new_tlab, h]
  · intro h
    simp [ZCollectedHeap.allocate_new_tlab, h]

/-- C2 on the concrete engine: with room in the page a refill of 4096 words
succeeds and writes 4096 over the prior 7; with the page full it returns null
and the prior 7 stays. -/
theorem allocate_new_tlab_success_and_failure_witness :
    ((ZCollectedHeap.allocate_new_tlab toy toy_state 256 4096 7).1 = 2 ^ 44 + 8192 ∧
      (ZCollectedHeap.allocate_new_tlab toy toy_state 256 4096 7).2.1 = 4096) ∧
    ((ZCollectedHeap.allocate_new_tlab toy toy_state_full 256 4096 7).1 = 0 ∧
      (ZCollectedHeap.allocate_new_tlab toy toy_state_full 256 4096 7).2.1 = 7) :=
  ⟨(allocate_new_tlab_success_and_failure toy toy_state 256 4096 7).1 (by decide),
   (allocate_new_tlab_success_and_failure toy toy_state_full 256 4096 7).2 (by decide)⟩

/-- C3: `satisfy_failed_metadata_allocation` first sends the driver one
collection request with cause `_metadata_GC_threshold` and then asks the
loader's metaspace to expand and allocate, in the state the request left. A
non-null retry is returned and nothing else is called; after a null retry one
critical allocation is made and its result, null or not, is returned. -/
theorem satisfy_failed_metadata_allocation_escalation (z : Collaborators σ) (s : State σ)
    (loader_data size : Nat) (mdtype : MetadataType) :
    ((z.expand_and_allocate (z.driver_collect s.ext GCCause._metadata_GC_threshold)
        loader_data size mdtype).1 ≠ 0 →
      ZCollectedHeap.satisfy_failed_metadata_allocation z s loader_data size mdtype =
        ((z.expand_and_allocate (z.driver_collect s.ext GCCause._metadata_GC_threshold)
            loader_data size mdtype).1,
         { ext := (z.expand_and_allocate (z.driver_collect s.ext GCCause._metadata_GC_threshold)
            loader_data size mdtype).2
           log := s.log ++ [Call.driver_collect GCCause._metadata_GC_threshold,
                            Call.expand_and_allocate loader_data size mdtype] })) ∧
    ((z.expand_and_allocate (z.driver_collect s.ext GCCause._metadata_GC_threshold)
        loader_data size mdtype).1 = 0 →
      ZCollectedHeap.satisfy_failed_metadata_allocation z s loader_data size mdtype =
        ((z.critical_allocate
            (z.expand_and_allocate (z.driver_collect s.ext GCCause._metadata_GC_threshold)
              loader_data size mdtype).2 loader_data size mdtype).1,
         { ext := (z.critical_allocate
            (z.expand_and_allocate (z.driver_collect s.ext GCCause._metadata_GC_threshold)
              loader_data size mdtype).2 loader_data size mdtype).2
           log := s.log ++ [Call.driver_collect GCCause._metadata_GC_threshold,
                            Call.expand_and_allocate loader_data size mdtype,
                            Call.critical_allocate loader_data size mdtype] })) := by
  constructor
  · intro h
    simp [ZCollectedHeap.satisfy_failed_metadata_allocation, ZCollectedHeap.collect, h]
  · intro h
    simp [ZCollectedHeap.satisfy_failed_metadata_allocation, ZCollectedHeap.collect, h]

/-- C3 on the concrete engine: with a metaspace that can expand, the request
is followed by the retry, whose address 8192 is returned, and no critical
allocation is made; with one that cannot, the critical allocation follows and
its null result is returned. -/
theorem satisfy_failed_metadata_allocation_escalation_witness :
    ((ZCollectedHeap.satisfy_failed_metadata_allocation toy toy_state 5 128
        MetadataType.ClassType).1 = 8192 ∧
      (ZCollectedHeap.satisfy_failed_metadata_allocation toy toy_state 5 128
        MetadataType.ClassType).2.log =
        [Call.driver_collect GCCause._metadata_GC_threshold,
         Call.expand_and_allocate 5 128 MetadataType.ClassType]) ∧
    ((ZCollectedHeap.satisfy_failed_metadata_allocation toy toy_state_full 5 128
        MetadataType.ClassType).1 = 0 ∧
      (ZCollectedHeap.satisfy_failed_metadata_allocation toy toy_state_full 5 128
        MetadataType.ClassType).2.log =
        [Call.driver_collect GCCause._metadata_GC_threshold,
         Call.expand_and_allocate 5 128 MetadataType.ClassType,
         Call.critical_allocate 5 128 MetadataType.ClassType]) := by
  have h1 := (satisfy_failed_metadata_allocation_escalation toy toy_state 5 128
    MetadataType.ClassType).1 (by decide)
  have h2 := (satisfy_failed_metadata_allocation_escalation toy toy_state_full 5 128
    MetadataType.ClassType).2 (by decide)
  rw [h1, h2]
  exact ⟨⟨rfl, rfl⟩, rfl, rfl⟩

/-- C4: on the VM thread, `collect_as_vm_thread` fails its guarantee exactly
when the cause is neither `_heap_dump` nor `_heap_inspection`; for these two
causes it returns with the state, log of calls included, as it was. -/
theorem collect_as_vm_thread_guarantee (z : Collaborators σ) (s : State σ)
    (debug_build : Bool) (cause : GCCause) :
    (ZCollectedHeap.collect_as_vm_thread z s true debug_build cause =
        Except.error (Fatal.guarantee_failed "Invalid cause") ↔
      (cause ≠ GCCause._heap_dump ∧ cause ≠ GCCause._heap_inspection)) ∧
    ((∃ e, ZCollectedHeap.collect_as_vm_thread z s true debug_build cause = Except.error e) ↔
      (cause ≠ GCCause._heap_dump ∧ cause ≠ GCCause._heap_inspection)) ∧
    ZCollectedHeap.collect_as_vm_thread z s true debug_build GCCause._heap_dump =
      Except.ok ((), s) ∧
    ZCollectedHeap.collect_as_vm_thread z s true debug_build GCCause._heap_inspection =
      Except.ok ((), s) := by
  refine ⟨?_, ?_, ?_, ?_⟩
  · by_cases h1 : cause = GCCause._heap_dump <;> by_cases h2 : cause = GCCause._heap_inspection <;>
      simp [ZCollectedHeap.collect_as_vm_thread, h1, h2]
  · by_cases h1 : cause = GCCause._heap_dump <;> by_cases h2 : cause = GCCause._heap_inspection <;>
      simp [ZCollectedHeap.collect_as_vm_thread, h1, h2]
  · simp [ZCollectedHeap.collect_as_vm_thread]
  · simp [ZCollectedHeap.collect_as_vm_thread]

/-- C5: `initialize` returns `JNI_ENOMEM` exactly when the engine is not
initialized, and then leaves the state as it was, registering no range;
otherwise it makes the one call `calculate_verify_data(0, UINTPTR_MAX)`, the
range from 0 to `2 ^ 64 - 1`, and returns `JNI_OK`. -/
theorem initialize_check_and_report (z : Collaborators σ) (s : State σ) :
    (( ZCollectedHeap.initialize z s).1 = JNI_ENOMEM ↔ z.heap_is_initialized s.ext = false) ∧
    (z.heap_is_initialized s.ext = false → ( ZCollectedHeap.initialize z s).2 = s) ∧
    (z.heap_is_initialized s.ext = true →
      ( ZCollectedHeap.initialize z s).1 = JNI_OK ∧
      ( ZCollectedHeap.initialize z s).2.log =
        s.log ++ [Call.calculate_verify_data 0 (2 ^ 64 - 1)] ∧
      ( ZCollectedHeap.initialize z s).2.ext =
        z.calculate_verify_data s.ext 0 (2 ^ 64 - 1)) := by
  cases h : z.heap_is_initialized s.ext <;>
    simp [ ZCollectedHeap.initialize, h, JNI_OK, JNI_ENOMEM, UINTPTR_MAX, BitsPerWord]

/-- C5 on the concrete engine: uninitialized, `initialize` returns -4 and logs
nothing; initialized, it returns 0 and registers the full range. -/
theorem initialize_check_and_report_witness :
    (( ZCollectedHeap.initialize toy toy_state_full).1 = -4 ∧
      ( ZCollectedHeap.initialize toy toy_state_full).2.log = []) ∧
    (( ZCollectedHeap.initialize toy toy_state).1 = 0 ∧
      ( ZCollectedHeap.initialize toy toy_state).2.log =
        [Call.calculate_verify_data 0 18446744073709551615] ∧
      ( ZCollectedHeap.initialize toy toy_state).2.ext.verify_range =
        some (0, 18446744073709551615)) := by
  have h0 := initialize_check_and_report toy toy_state_full
  have h1 := (initialize_check_and_report toy toy_state).2.2 (by decide)
  refine ⟨⟨h0.1.2 (by decide), ?_⟩, h1.1, ?_, ?_⟩
  · rw [h0.2.1 (by decide)]; rfl
  · rw [h1.2.1]; rfl
  · rw [h1.2.2]; rfl

/-- C8: `is_maximal_no_gc`, and `do_full_collection` for either value of its
flag, end in the fatal `ShouldNotReachHere`: whatever the collaborators and the
state, neither returns a result or a new state. -/
theorem unsupported_operations_are_fatal (z : Collaborators σ) (s : State σ) :
    ZCollectedHeap.is_maximal_no_gc z s = Except.error Fatal.ShouldNotReachHere ∧
    ZCollectedHeap.do_full_collection z s true = Except.error Fatal.ShouldNotReachHere ∧
    ZCollectedHeap.do_full_collection z s false = Except.error Fatal.ShouldNotReachHere :=
  ⟨rfl, rfl, rfl⟩

/-- C9: `allocate_new_tlab` makes one call on the engine, `alloc_tlab` with the
object-aligned `requested_size` converted from words to bytes, and its whole
outcome (address, `*actual_size`, state and log) is the same for any two
values of `min_size`. -/
theorem allocate_new_tlab_ignores_min_size (z : Collaborators σ) (s : State σ)
    (min_size min_size2 requested_size actual_size : Nat) :
    (ZCollectedHeap.allocate_new_tlab z s min_size requested_size actual_size).2.2.log =
      s.log ++ [Call.alloc_tlab (words_to_bytes (align_object_size z requested_size))] ∧
    (ZCollectedHeap.allocate_new_tlab z s min_size requested_size actual_size).2.2.ext =
      (z.heap_alloc_tlab s.ext (words_to_bytes (align_object_size z requested_size))).2 ∧
    (ZCollectedHeap.allocate_new_tlab z s min_size requested_size actual_size).1 =
      (z.heap_alloc_tlab s.ext (words_to_bytes (align_object_size z requested_size))).1 ∧
    ZCollectedHeap.allocate_new_tlab z s min_size requested_size actual_size =
      ZCollectedHeap.allocate_new_tlab z s min_size2 requested_size actual_size := by
  refine ⟨?_, ?_, ?_, rfl⟩ <;>
    by_cases h : (z.heap_alloc_tlab s.ext (words_to_bytes (align_object_size z requested_size))).1 = 0 <;>
    simp [ZCollectedHeap.allocate_new_tlab, h]

/-- Applying a closure along a list of threads: the closure state is folded
over the list, and one `do_thread` entry per thread is appended to the log. -/
theorem foldl_apply_eq (tc : ThreadClosure κ) (l : List Thread) (k : κ) (s : State σ) :
    l.foldl tc.apply (k, s) =
      (l.foldl (fun k t => tc.do_thread t k) k,
       { ext := s.ext, log := s.log ++ l.map Call.do_thread }) := by
  induction l generalizing k s with
  | nil => simp
  | cons t l ih =>
    simp only [List.foldl_cons, List.map_cons]
    rw [show tc.apply (k, s) t = (tc.do_thread t k, record s (Call.do_thread t)) from rfl, ih]
    simp [record]

/-- C6, as stated, fails: on the concrete engine the address `2 ^ 44 + 4096`
is in the heap, and the same address with its colour bits masked off, 4096,
is not. -/
theorem is_in_depends_on_color_bits :
    ZCollectedHeap.is_in toy toy_state (2 ^ 44 + 4096) = true ∧
    mask_color_bits toy (2 ^ 44 + 4096) = 4096 ∧
    ZCollectedHeap.is_in toy toy_state (mask_color_bits toy (2 ^ 44 + 4096)) = false ∧
    ZCollectedHeap.is_in toy toy_state (2 ^ 44 + 4096) ≠
      ZCollectedHeap.is_in toy toy_state (mask_color_bits toy (2 ^ 44 + 4096)) := by
  decide

/-- C6, amended: `is_in(p)` is the answer of the engine's `is_in` for the
address `p` itself, with no bit masked off; so `is_in(p)` and `is_in` of `p`
without its colour bits agree whenever the engine answers alike for the two. -/
theorem is_in_passes_address_unchanged (z : Collaborators σ) (s : State σ) (p : Nat) :
    ZCollectedHeap.is_in z s p = z.heap_is_in s.ext p ∧
    (z.heap_is_in s.ext p = z.heap_is_in s.ext (mask_color_bits z p) →
      ZCollectedHeap.is_in z s p = ZCollectedHeap.is_in z s (mask_color_bits z p)) :=
  ⟨rfl, fun h => h⟩

/-- C6, amended, on the concrete engine at an address that carries no
heap-view bit: the engine answers false for it and for its offset alike. -/
theorem is_in_passes_address_unchanged_witness :
    ZCollectedHeap.is_in toy toy_state (2 ^ 45 + 4096) =
      ZCollectedHeap.is_in toy toy_state (mask_color_bits toy (2 ^ 45 + 4096)) :=
  (is_in_passes_address_unchanged toy toy_state (2 ^ 45 + 4096)).2 (by decide)

/-- Clearing the low `k` bits of a 64-bit value rounds it down to a multiple
of `2 ^ k`. -/
theorem land_not_mask_eq (y k : Nat) (hy : y < 2 ^ 64) (hk : k ≤ 64) :
    y &&& (2 ^ 64 - 1 - (2 ^ k - 1)) = y / 2 ^ k * 2 ^ k := by
  have hpos : 0 < 2 ^ k := Nat.two_pow_pos k
  have hle : 2 ^ k ≤ 2 ^ 64 := Nat.pow_le_pow_right (by norm_num) hk
  have hm : 2 ^ 64 - 1 - (2 ^ k - 1) = 2 ^ 64 - ((2 ^ k - 1) + 1) := by omega
  have hlt : 2 ^ k - 1 < 2 ^ 64 := by omega
  rw [hm, ← Nat.shiftRight_eq_div_pow, ← Nat.shiftLeft_eq]
  apply Nat.eq_of_testBit_eq
  intro j
  rw [Nat.testBit_and, Nat.testBit_two_pow_sub_succ hlt, Nat.testBit_two_pow_sub_one,
    Nat.testBit_shiftLeft, Nat.testBit_shiftRight]
  by_cases hj : j < 64
  · by_cases hjk : j < k
    · have : ¬ j ≥ k := by omega
      simp [hj, hjk, this]
    · have h1 : j ≥ k := by omega
      have h2 : k + (j - k) = j := by omega
      simp [hj, hjk, h1, h2]
  · have hy' : y.testBit j = false := by
      apply Nat.testBit_lt_two_pow
      exact lt_of_lt_of_le hy (Nat.pow_le_pow_right (by norm_num) (by omega))
    have hk' : k + (j - k) = j := by omega
    simp [hj, hy', hk']

/-- When the exact aligned byte size fits a machine word, the `size_t`
computation of `allocate_new_tlab` does not wrap: it yields the exact value. -/
theorem words_to_bytes_align_object_size_exact (z : Collaborators σ) (r : Nat)
    (hfit : object_aligned_size_in_bytes z r < 2 ^ BitsPerWord) :
    words_to_bytes (align_object_size z r) = object_aligned_size_in_bytes z r := by
  unfold object_aligned_size_in_bytes MinObjAlignment HeapWordSize LogHeapWordSize BitsPerWord
    at hfit
  unfold words_to_bytes align_object_size align_up object_aligned_size_in_bytes MinObjAlignment
    HeapWordSize LogHeapWordSize BitsPerWord
  have hpos : 0 < 2 ^ z.LogMinObjAlignment := Nat.two_pow_pos _
  generalize hq : (r + (2 ^ z.LogMinObjAlignment - 1)) / 2 ^ z.LogMinObjAlignment = q at hfit ⊢
  have hal : ((r + (2 ^ z.LogMinObjAlignment - 1)) % 2 ^ 64) &&&
      (2 ^ 64 - 1 - (2 ^ z.LogMinObjAlignment - 1)) = q * 2 ^ z.LogMinObjAlignment := by
    rcases Nat.eq_zero_or_pos q with h0 | h1
    · -- the quotient is 0: `r` is 0
      have hr : r + (2 ^ z.LogMinObjAlignment - 1) < 2 ^ z.LogMinObjAlignment := by
        rw [h0] at hq
        exact (Nat.div_eq_zero_iff hpos).mp hq
      by_cases hk : z.LogMinObjAlignment ≤ 64
      · have hle : 2 ^ z.LogMinObjAlignment ≤ 2 ^ 64 := Nat.pow_le_pow_right (by norm_num) hk
        rw [Nat.mod_eq_of_lt (by omega), land_not_mask_eq _ _ (by omega) hk, hq]
      · have hle : 2 ^ 64 ≤ 2 ^ z.LogMinObjAlignment :=
          Nat.pow_le_pow_right (by norm_num) (by omega)
        have hz : 2 ^ 64 - 1 - (2 ^ z.LogMinObjAlignment - 1) = 0 := by omega
        rw [hz, h0]
        simp
    · -- the quotient is positive: the alignment and the sum are small
      have ha : 2 ^ z.LogMinObjAlignment ≤ q * 2 ^ z.LogMinObjAlignment :=
        Nat.le_mul_of_pos_left _ h1
      have hk : z.LogMinObjAlignment ≤ 64 := by
        by_contra hc
        have hle : 2 ^ 64 ≤ 2 ^ z.LogMinObjAlignment :=
          Nat.pow_le_pow_right (by norm_num) (by omega)
        omega
      have hlt : r + (2 ^ z.LogMinObjAlignment - 1) <
          q * 2 ^ z.LogMinObjAlignment + 2 ^ z.LogMinObjAlignment := by
        rw [← hq]
        exact Nat.lt_div_mul_add hpos
      rw [Nat.mod_eq_of_lt (by omega), land_not_mask_eq _ _ (by omega) hk, hq]
  rw [hal, Nat.shiftLeft_eq, Nat.mod_eq_of_lt hfit]

/-- The exact aligned byte size is at least the byte size of `r` words, and
equal to it exactly when `r` is a multiple of the object alignment. -/
theorem le_object_aligned_size_in_bytes (z : Collaborators σ) (r : Nat) :
    r * HeapWordSize ≤ object_aligned_size_in_bytes z r ∧
    (r * HeapWordSize = object_aligned_size_in_bytes z r ↔ r % MinObjAlignment z = 0) := by
  unfold object_aligned_size_in_bytes MinObjAlignment HeapWordSize LogHeapWordSize
  have hpos : 0 < 2 ^ z.LogMinObjAlignment := Nat.two_pow_pos _
  generalize hq : (r + (2 ^ z.LogMinObjAlignment - 1)) / 2 ^ z.LogMinObjAlignment = q
  have hlt : r + (2 ^ z.LogMinObjAlignment - 1) <
      q * 2 ^ z.LogMinObjAlignment + 2 ^ z.LogMinObjAlignment := by
    rw [← hq]
    exact Nat.lt_div_mul_add hpos
  have hge : q * 2 ^ z.LogMinObjAlignment ≤ r + (2 ^ z.LogMinObjAlignment - 1) := by
    rw [← hq]
    exact Nat.div_mul_le_self _ _
  have hle : r ≤ q * 2 ^ z.LogMinObjAlignment := by omega
  refine ⟨by omega, ?_, ?_⟩
  · intro h
    have hr : r = q * 2 ^ z.LogMinObjAlignment := by omega
    rw [hr]
    exact Nat.mul_mod_left _ _
  · intro h
    have hd : 2 ^ z.LogMinObjAlignment ∣ q * 2 ^ z.LogMinObjAlignment - r :=
      Nat.dvd_sub' (Nat.dvd_mul_left _ _) (Nat.dvd_of_mod_eq_zero h)
    have h0 : q * 2 ^ z.LogMinObjAlignment - r = 0 :=
      Nat.eq_zero_of_dvd_of_lt hd (by omega)
    omega

/-- C10: when the object-aligned size of `requested_size`, converted to bytes,
fits a machine word, a successful `allocate_new_tlab` reports in `*actual_size`
a word count whose byte size is at most the byte size it asked the engine for;
the two are equal exactly when `requested_size` is a multiple of the object
alignment. -/
theorem allocate_new_tlab_actual_size_le_request (z : Collaborators σ) (s : State σ)
    (min_size requested_size actual_size : Nat)
    (hfit : object_aligned_size_in_bytes z requested_size < 2 ^ BitsPerWord)
    (hok : (ZCollectedHeap.allocate_new_tlab z s min_size requested_size actual_size).1 ≠ 0) :
    (ZCollectedHeap.allocate_new_tlab z s min_size requested_size actual_size).2.2.log =
      s.log ++ [Call.alloc_tlab (words_to_bytes (align_object_size z requested_size))] ∧
    (ZCollectedHeap.allocate_new_tlab z s min_size requested_size actual_size).2.1 * HeapWordSize ≤
      words_to_bytes (align_object_size z requested_size) ∧
    ((ZCollectedHeap.allocate_new_tlab z s min_size requested_size actual_size).2.1 * HeapWordSize =
        words_to_bytes (align_object_size z requested_size) ↔
      requested_size % MinObjAlignment z = 0) := by
  have hne : (z.heap_alloc_tlab s.ext (words_to_bytes (align_object_size z requested_size))).1 ≠ 0 := by
    by_contra hc
    apply hok
    simp [ZCollectedHeap.allocate_new_tlab, hc]
  have hact : (ZCollectedHeap.allocate_new_tlab z s min_size requested_size actual_size).2.1 =
      requested_size := by
    simp [ZCollectedHeap.allocate_new_tlab, hne]
  have hlog : (ZCollectedHeap.allocate_new_tlab z s min_size requested_size actual_size).2.2.log =
      s.log ++ [Call.alloc_tlab (words_to_bytes (align_object_size z requested_size))] := by
    simp [ZCollectedHeap.allocate_new_tlab, hne]
  rw [hact, words_to_bytes_align_object_size_exact z requested_size hfit]
  exact ⟨by rw [hlog, words_to_bytes_align_object_size_exact z requested_size hfit],
    le_object_aligned_size_in_bytes z requested_size⟩

/-- C10 on the concrete engine, whose object alignment is 2 words: a refill of
4095 words asks the engine for 32768 bytes and reports 4095 words, which are
32760 bytes; 4095 is odd, and the two sizes differ. -/
theorem allocate_new_tlab_actual_size_le_request_witness :
    (ZCollectedHeap.allocate_new_tlab toy toy_state 256 4095 7).2.2.log = [Call.alloc_tlab 32768] ∧
    (ZCollectedHeap.allocate_new_tlab toy toy_state 256 4095 7).2.1 * HeapWordSize = 32760 ∧
    (ZCollectedHeap.allocate_new_tlab toy toy_state 256 4095 7).2.1 * HeapWordSize ≤ 32768 ∧
    4095 % MinObjAlignment toy = 1 := by
  have h := allocate_new_tlab_actual_size_le_request toy toy_state 256 4095 7
    (by decide) (by decide)
  refine ⟨?_, by decide, ?_, by decide⟩
  · rw [h.1]; rfl
  · exact h.2.1

end ZGC
